import Mathlib

/-!
Verification model of the copilot-proxy-server daemon lifecycle subsystem.

The definitions below are a shallow embedding of:
* `src/daemon/controller.ts` — the `DaemonController` class (lifecycle state
  machine, signal handling, graceful/forced shutdown);
* `src/daemon/types.ts` — `startResilientInterval` (periodic runner with
  exponential backoff);
* the server module (readiness flag, active-request middleware, and the
  `/admin/shutdown` endpoint);
* `src/daemon/pid.ts` — the process-identity (PID file) store.

The daemon runs on a single cooperative timeline, so the asynchronous source
is embedded as an explicit state machine: each suspension point of the
TypeScript code becomes a separate atomic operation, and the environment
(request completions, task outcomes, signal arrivals) is supplied as operation
arguments.  Wall-clock time is a `Nat` field advanced by the drain-poll sleep.
-/

/-! ## Lifecycle state (src/daemon/types.ts, `LifecycleState`) -/

inductive LState
  | init
  | starting
  | ready
  | draining
  | stopped
  | failed
deriving DecidableEq, Repr

/-! ## Controller state (fields of `DaemonController` plus the module-level
readiness flag it writes, the hook-invocation log, and the process exit code).

* `hooks` — the `this.hooks` array, identified by numeric labels.
* `invoked` — log of hook invocations, in order (each entry records one call
  of a registered hook's function).
* `exitCode` — `some c` once `process.exit(c)` has been called; after that no
  further code runs.
* `now` / `deadline` — `Date.now()` and the drain deadline computed in
  `beginShutdown`.
* `bindAttempts` — number of invocations of the bind/start function, used to
  express "the controller does not retry".
-/

structure CState where
  lstate : LState
  forced : Bool
  hooks : List Nat
  readiness : Bool
  invoked : List Nat
  exitCode : Option Nat
  exitOnShutdown : Bool
  shutdownTimeoutMs : Nat
  now : Nat
  deadline : Nat
  bindAttempts : Nat
deriving DecidableEq, Repr

/-- Controller construction: state `init`, readiness flag `true` (the server
module initialises `let ready = true`), no hooks, clock at 0. -/
def initController (shutdownTimeoutMs : Nat) (exitOnShutdown : Bool) : CState :=
  { lstate := .init
    forced := false
    hooks := []
    readiness := true
    invoked := []
    exitCode := none
    exitOnShutdown := exitOnShutdown
    shutdownTimeoutMs := shutdownTimeoutMs
    now := 0
    deadline := 0
    bindAttempts := 0 }

/-- Error outcomes of `start()`: the synchronous
`Cannot start from state ...` throw, and a propagated bind failure. -/
inductive StartError
  | invalidState (s : LState)
  | bindFailure
deriving DecidableEq, Repr

/-- `DaemonController.start()` (controller.ts:89-133).  Valid only from
`init`; otherwise throws synchronously leaving the state untouched.  Sets
`starting`, invokes the bind/start function once; on success sets `ready` and
opens the readiness gate; on failure sets `failed` and propagates the error.
(The PID-file write performed only under `_COPILOT_DAEMON_CHILD=1` is outside
this model, which corresponds to runs without that environment marker.) -/
def startCtl (bindOk : Bool) (s : CState) : CState × Option StartError :=
  if s.lstate = LState.init then
    let s1 := { s with lstate := LState.starting, bindAttempts := s.bindAttempts + 1 }
    if bindOk then
      ({ s1 with lstate := LState.ready, readiness := true }, none)
    else
      ({ s1 with lstate := LState.failed }, some StartError.bindFailure)
  else
    (s, some (StartError.invalidState s.lstate))

/-- `DaemonController.forceTerminate()` (controller.ts:218-236): best-effort
re-invocation of the *live* hook list (`this.hooks.map((h) => h())`), then
`process.exit(2)`, or state `stopped` when `exitOnShutdown` is off.  Returns
the new state together with the lifecycle states entered during the step. -/
def forceTerminate (s : CState) : CState × List LState :=
  let s1 := { s with invoked := s.invoked ++ s.hooks }
  if s1.exitOnShutdown then
    ({ s1 with exitCode := some 2 }, [])
  else
    ({ s1 with lstate := LState.stopped }, [LState.stopped])

/-- The clean tail of `beginShutdown` (controller.ts:199-215): hooks already
awaited, `process.exit(0)` or state `stopped` in test mode. -/
def cleanFinish (s : CState) : CState × List LState :=
  if s.exitOnShutdown then
    ({ s with exitCode := some 0 }, [])
  else
    ({ s with lstate := LState.stopped }, [LState.stopped])

/-- Entry of `DaemonController.beginShutdown` (controller.ts:153-176), up to
the first suspension of the drain-poll loop: no effect when already `stopped`;
otherwise state `draining`, readiness gate closed, the deadline set to
`Date.now() + shutdownTimeoutMs`, and every hook currently in the list invoked
once (the `hookPromises` array starts each hook at creation). -/
def beginShutdownCtl (s : CState) : CState × List LState :=
  if s.lstate = LState.stopped then
    (s, [])
  else
    ({ s with lstate := LState.draining
              readiness := false
              invoked := s.invoked ++ s.hooks
              deadline := s.now + s.shutdownTimeoutMs }, [LState.draining])

/-- `DaemonController.handleSignal` (controller.ts:136-150): a signal during
`draining` sets the forced flag and immediately force-terminates; any other
signal begins the graceful shutdown. -/
def handleSignal (s : CState) : CState × List LState :=
  if s.lstate = LState.draining then
    forceTerminate { s with forced := true }
  else
    beginShutdownCtl s

/-- One iteration of the drain-poll loop of `beginShutdown`
(controller.ts:179-197), with `active` the value `getActiveRequests()`
returns at this poll.  The loop condition `Date.now() < deadline && !forced`
failing leads to the forced-termination branch; an observation of zero active
requests exits the loop into the clean branch; otherwise the loop sleeps
200 ms.  (The model treats the await of the already-started hook promises as
completing without advancing the clock.) -/
def drainTick (active : Nat) (s : CState) : CState × List LState :=
  if s.lstate = LState.draining then
    if s.forced ∨ s.deadline ≤ s.now then
      forceTerminate s
    else if active = 0 then
      cleanFinish s
    else
      ({ s with now := s.now + 200 }, [])
  else
    (s, [])

/-- External operations on the controller: `start` with the bind outcome,
`registerHook`, an OS termination signal, an explicit `beginShutdown` call,
and one drain-poll iteration observing `active` in-flight requests. -/
inductive COp
  | start (bindOk : Bool)
  | registerHook (h : Nat)
  | signal
  | beginShutdown
  | drainTick (active : Nat)
deriving DecidableEq, Repr

/-- One atomic operation.  After `process.exit` (exitCode set) nothing runs.
`registerHook` (controller.ts:79-81) appends unconditionally.  The returned
list records the lifecycle states entered during the step, in order. -/
def stepC (op : COp) (s : CState) : CState × List LState :=
  if s.exitCode.isSome then
    (s, [])
  else
    match op with
    | COp.start bindOk =>
        ((startCtl bindOk s).1,
          if s.lstate = LState.init then
            [LState.starting, (startCtl bindOk s).1.lstate]
          else [])
    | COp.registerHook h => ({ s with hooks := s.hooks ++ [h] }, [])
    | COp.signal => handleSignal s
    | COp.beginShutdown => beginShutdownCtl s
    | COp.drainTick a => drainTick a s

/-- Run a sequence of operations, accumulating the lifecycle-state trace. -/
def runC : List COp → CState → CState × List LState
  | [], s => (s, [])
  | op :: rest, s =>
      ((runC rest (stepC op s).1).1, (stepC op s).2 ++ (runC rest (stepC op s).1).2)

/-- The transition chain claimed by the specification:
`init→starting→ready→draining→{stopped|failed}`, plus `starting→failed`
on bind error. -/
def chainEdge : LState → LState → Bool
  | LState.init, LState.starting => true
  | LState.starting, LState.ready => true
  | LState.starting, LState.failed => true
  | LState.ready, LState.draining => true
  | LState.draining, LState.stopped => true
  | LState.draining, LState.failed => true
  | _, _ => false

/-- The transitions the code actually takes: the chain, extended by
`beginShutdown` moving any non-`stopped` state to `draining`. -/
def allowedEdge (a b : LState) : Bool :=
  chainEdge a b || (decide (a ≠ LState.stopped) && decide (b = LState.draining))

/-- Checks that, starting from `a`, each consecutive pair of a state trace is
either a stutter or an `edge` transition. -/
def edgeOKFrom (edge : LState → LState → Bool) : LState → List LState → Bool
  | _, [] => true
  | a, b :: rest => (decide (a = b) || edge a b) && edgeOKFrom edge b rest

/-! ## Readiness and drain gate (server module, active-request middleware)

The middleware is

```
if (!ready) return c.text("Server is shutting down", 503)
activeRequests += 1
try { await next() } finally { activeRequests -= 1 }
```

Its effect on the counter is embedded as the list of counter events it emits.
-/

inductive GEvent
  | inc
  | dec
deriving DecidableEq, Repr

inductive AdmitResult
  | unavailable
  | completed
  | errored
deriving DecidableEq, Repr

/-- The admission middleware for one request: `ready` is the readiness flag at
admission, `nextOk` whether `next()` completed or threw.  A not-ready request
is rejected with 503 before any counter event; an admitted request increments,
runs `next()`, and the `finally` block decrements on both outcomes. -/
def admitRequest (ready : Bool) (nextOk : Bool) : List GEvent × AdmitResult :=
  if ready = false then
    ([], AdmitResult.unavailable)
  else
    ([GEvent.inc] ++ [GEvent.dec],
      if nextOk then AdmitResult.completed else AdmitResult.errored)

/-- Counter events of a finite run of requests, each request given as
(readiness at admission, `next()` outcome). -/
def runEvents (reqs : List (Bool × Bool)) : List GEvent :=
  (reqs.map fun r => (admitRequest r.1 r.2).1).flatten

/-- `activeRequests += 1` / `-= 1`. -/
def applyEvent (n : Int) : GEvent → Int
  | GEvent.inc => n + 1
  | GEvent.dec => n - 1

def applyEvents (n : Int) (es : List GEvent) : Int :=
  es.foldl applyEvent n

/-- Least value the counter takes while processing `es` from value `n`
(including the initial value). -/
def minCounter (n : Int) : List GEvent → Int
  | [] => n
  | e :: rest => min n (minCounter (applyEvent n e) rest)

/-! ## Admin shutdown endpoint (`server.post("/admin/shutdown")`)

Host headers are embedded as `List Char`.  The handler's side effects are
recorded as an effect list; `callBeginShutdown` exists to express the claimed
behaviour and is never produced by the handler itself.
-/

inductive AdminEffect
  | setReadinessFalse
  | scheduleExit (code : Nat) (delayMs : Nat)
  | callBeginShutdown
deriving DecidableEq, Repr

structure AdminResponse where
  status : Nat
  body : List Char
deriving DecidableEq, Repr

/-- `host.startsWith(prefix)` on the Host header. -/
def headerStartsWith (host pre : List Char) : Bool :=
  pre.isPrefixOf host

/-- The handler's origin check: the Host header starts with `localhost:` or
`127.0.0.1:`. -/
def loopbackHostHeader (host : List Char) : Bool :=
  headerStartsWith host "localhost:".data || headerStartsWith host "127.0.0.1:".data

/-- The `/admin/shutdown` handler: 403 with no effect unless the origin check
passes; otherwise `setReadiness(false)`, a `setTimeout(() => process.exit(0), 100)`,
and an immediate 200 acknowledgement. -/
def adminShutdown (host : List Char) : AdminResponse × List AdminEffect :=
  if loopbackHostHeader host = false then
    (⟨403, "Forbidden".data⟩, [])
  else
    (⟨200, "Shutting down gracefully".data⟩,
      [AdminEffect.setReadinessFalse, AdminEffect.scheduleExit 0 100])

/-! ## Resilient interval runner (`startResilientInterval`, src/daemon/types.ts)

State of one runner instance; `ran` counts how many executions of the wrapped
function have begun.  The wrapped function's outcome is supplied by the
environment as a `Bool` (`true` = resolved, `false` = rejected).
-/

structure RIState where
  stopped : Bool
  timer : Option Nat
  consecutiveFailures : Nat
  ran : Nat
deriving DecidableEq, Repr

/-- Resolved configuration: `maxBackoff = opts.maxBackoffMs ?? intervalMs * 10`,
`multiplier = opts.backoffMultiplier ?? 2`. -/
structure RIConfig where
  intervalMs : Nat
  maxBackoff : Nat
  multiplier : Nat
deriving DecidableEq, Repr

def mkRIConfig (intervalMs : Nat) (maxBackoffMs : Option Nat) (backoffMultiplier : Option Nat) : RIConfig :=
  { intervalMs := intervalMs
    maxBackoff := maxBackoffMs.getD (intervalMs * 10)
    multiplier := backoffMultiplier.getD 2 }

/-- `scheduleNext(delay)`: no effect once stopped; otherwise replaces any
pending timer with one for `Math.max(0, delay)`. -/
def scheduleNext (delay : Nat) (s : RIState) : RIState :=
  if s.stopped then s else { s with timer := some (max 0 delay) }

/-- The part of `runOnce` after `fn()` settles: on success reset the failure
streak and reschedule after the base interval; on failure increment the streak
and reschedule after `min(round(intervalMs * multiplier ^ streak), maxBackoff)`
(exact on naturals, so the rounding is the identity). -/
def settleRun (cfg : RIConfig) (success : Bool) (s : RIState) : RIState :=
  if success then
    scheduleNext cfg.intervalMs { s with consecutiveFailures := 0 }
  else
    let streak := s.consecutiveFailures + 1
    scheduleNext (min (cfg.intervalMs * cfg.multiplier ^ streak) cfg.maxBackoff)
      { s with consecutiveFailures := streak }

/-- `runOnce`: returns immediately when stopped; otherwise one execution of
`fn` begins and settles with the given outcome. -/
def runOnce (cfg : RIConfig) (success : Bool) (s : RIState) : RIState :=
  if s.stopped then s
  else settleRun cfg success { s with ran := s.ran + 1 }

/-- A pending timer fires: the `setTimeout` callback invokes `runOnce`.
Nothing fires when no timer is pending. -/
def fireTimer (cfg : RIConfig) (success : Bool) (s : RIState) : RIState :=
  match s.timer with
  | none => s
  | some _ => runOnce cfg success { s with timer := none }

/-- `startResilientInterval` body: fresh state, then `scheduleNext(intervalMs)`
— the function is not called immediately. -/
def riStart (cfg : RIConfig) : RIState :=
  scheduleNext cfg.intervalMs
    { stopped := false, timer := none, consecutiveFailures := 0, ran := 0 }

/-- The handle's `stop()`: sets the stopped flag and clears any pending timer. -/
def riStop (s : RIState) : RIState :=
  { s with stopped := true, timer := none }

/-- Events that can occur after the handle is returned: a pending timer firing
(with the execution's outcome), or an execution that was already in flight
settling with its outcome. -/
inductive RIEvent
  | fire (success : Bool)
  | settleInFlight (success : Bool)
deriving DecidableEq, Repr

def stepRI (cfg : RIConfig) (e : RIEvent) (s : RIState) : RIState :=
  match e with
  | RIEvent.fire success => fireTimer cfg success s
  | RIEvent.settleInFlight success => settleRun cfg success s

def runRI (cfg : RIConfig) : List RIEvent → RIState → RIState
  | [], s => s
  | e :: rest, s => runRI cfg rest (stepRI cfg e s)

/-! ## Process-identity store (src/daemon/pid.ts)

File content is embedded as a byte list (`none` = file absent).  `readPid`
is `Number(content.trim())` with a `NaN → null` guard; the numeric conversion
is modelled for the content this store traffics in — unsigned decimal digit
strings, and the empty string, which ECMA `ToNumber` maps to `0`; every other
content is mapped to `none` (NaN). -/

abbrev PidFile := Option (List Nat)

/-- Whitespace bytes removed by `String.prototype.trim`. -/
def isSpaceByte (b : Nat) : Bool :=
  b = 32 || b = 9 || b = 10 || b = 13 || b = 12 || b = 11

def isDigitByte (b : Nat) : Bool :=
  48 ≤ b && b ≤ 57

def trimBytes (s : List Nat) : List Nat :=
  ((s.dropWhile isSpaceByte).reverse.dropWhile isSpaceByte).reverse

/-- JS `Number()` of an already-trimmed string, restricted as described above:
`"" ↦ 0`, unsigned decimal numerals to their value, anything else to NaN. -/
def jsNumberOfTrimmed (s : List Nat) : Option Nat :=
  if s.isEmpty then some 0
  else if s.all isDigitByte then
    some (s.foldl (fun a b => a * 10 + (b - 48)) 0)
  else none

/-- `readPid()`: `null` when the file is absent (the read throws and is
caught); otherwise `Number(content.trim())`, with NaN mapped to `null`. -/
def readPid (file : PidFile) : Option Nat :=
  match file with
  | none => none
  | some content => jsNumberOfTrimmed (trimBytes content)

/-- Decimal ASCII bytes of `pid` — the content `writePid` produces via
`String(pid)`. -/
def pidBytes (pid : Nat) : List Nat :=
  if pid = 0 then [48]
  else ((Nat.digits 10 pid).map (fun d => 48 + d)).reverse

/-- Net state effect of `writePid(pid)` (the temp-file/rename machinery of the
source leaves no observable intermediate in this file-state model). -/
def writePid (pid : Nat) (_ : PidFile) : PidFile :=
  some (pidBytes pid)

/-- `removePid()`: best-effort delete. -/
def removePid (_ : PidFile) : PidFile :=
  none

/-- Modelled from the spec: file content is parsable as a PID iff, after
trimming, it is a nonempty decimal digit string.  (Spec-side reading of
"unparsable as a PID", for comparison against the code's `readPid`.) -/
def specParsableAsPid (s : List Nat) : Bool :=
  !(trimBytes s).isEmpty && (trimBytes s).all isDigitByte

/-! ## Helper lemmas -/

lemma edgeOKFrom_append (edge : LState → LState → Bool) (t1 : List LState) :
    ∀ (a : LState) (t2 : List LState),
      edgeOKFrom edge a (t1 ++ t2)
        = (edgeOKFrom edge a t1 && edgeOKFrom edge (t1.getLastD a) t2) := by
  induction t1 with
  | nil => intro a t2; simp [edgeOKFrom]
  | cons b rest ih =>
      intro a t2
      rw [List.cons_append, List.getLastD_cons]
      simp only [edgeOKFrom]
      rw [ih b t2, Bool.and_assoc]

lemma stepC_trace (op : COp) (s : CState) :
    edgeOKFrom allowedEdge s.lstate (stepC op s).2 = true ∧
      (stepC op s).2.getLastD s.lstate = (stepC op s).1.lstate := by
  by_cases hex : s.exitCode.isSome
  · simp [stepC, hex, edgeOKFrom]
  · cases op with
    | start bindOk =>
        by_cases hs : s.lstate = LState.init
        · cases bindOk <;>
            simp [stepC, hex, hs, startCtl, edgeOKFrom, allowedEdge, chainEdge]
        · simp [stepC, hex, hs, startCtl, edgeOKFrom]
    | registerHook h => simp [stepC, hex, edgeOKFrom]
    | signal =>
        by_cases hd : s.lstate = LState.draining
        · by_cases he : s.exitOnShutdown <;>
            simp [stepC, hex, hd, handleSignal, forceTerminate, he, edgeOKFrom,
              allowedEdge, chainEdge]
        · by_cases hst : s.lstate = LState.stopped
          · simp [stepC, hex, hd, hst, handleSignal, beginShutdownCtl, edgeOKFrom]
          · simp [stepC, hex, hd, hst, handleSignal, beginShutdownCtl, edgeOKFrom,
              allowedEdge, chainEdge]
    | beginShutdown =>
        by_cases hst : s.lstate = LState.stopped
        · simp [stepC, hex, hst, beginShutdownCtl, edgeOKFrom]
        · simp [stepC, hex, hst, beginShutdownCtl, edgeOKFrom, allowedEdge, chainEdge]
    | drainTick a =>
        by_cases hd : s.lstate = LState.draining
        · by_cases hf : s.forced = true ∨ s.deadline ≤ s.now
          · by_cases he : s.exitOnShutdown <;>
              simp [stepC, hex, hd, hf, drainTick, forceTerminate, he, edgeOKFrom,
                allowedEdge, chainEdge]
          · by_cases ha : a = 0
            · by_cases he : s.exitOnShutdown <;>
                simp [stepC, hex, hd, hf, ha, drainTick, cleanFinish, he, edgeOKFrom,
                  allowedEdge, chainEdge]
            · simp [stepC, hex, hd, hf, ha, drainTick, edgeOKFrom]
        · simp [stepC, hex, hd, drainTick, edgeOKFrom]

lemma runC_trace_ok (ops : List COp) : ∀ s : CState,
    edgeOKFrom allowedEdge s.lstate (runC ops s).2 = true := by
  induction ops with
  | nil => intro s; simp [runC, edgeOKFrom]
  | cons op rest ih =>
      intro s
      have h := stepC_trace op s
      simp only [runC]
      rw [edgeOKFrom_append, h.1, h.2, Bool.true_and]
      exact ih (stepC op s).1

lemma stepC_stopped (op : COp) (s : CState) (h : s.lstate = LState.stopped) :
    (stepC op s).1.lstate = LState.stopped := by
  by_cases hex : s.exitCode.isSome
  · simp [stepC, hex, h]
  · cases op with
    | start bindOk => simp [stepC, hex, h, startCtl]
    | registerHook hk => simp [stepC, hex, h]
    | signal => simp [stepC, hex, h, handleSignal, beginShutdownCtl]
    | beginShutdown => simp [stepC, hex, h, beginShutdownCtl]
    | drainTick a => simp [stepC, hex, h, drainTick]

lemma stepC_beginShutdown_stopped (s : CState) (h : s.lstate = LState.stopped) :
    stepC COp.beginShutdown s = (s, []) := by
  by_cases hex : s.exitCode.isSome <;> simp [stepC, hex, beginShutdownCtl, h]

lemma applyEvents_append (n : Int) (a b : List GEvent) :
    applyEvents n (a ++ b) = applyEvents (applyEvents n a) b := by
  simp [applyEvents, List.foldl_append]

lemma minCounter_le (n : Int) (b : List GEvent) : minCounter n b ≤ n := by
  cases b with
  | nil => simp [minCounter]
  | cons e rest => exact min_le_left _ _

lemma minCounter_append (a : List GEvent) : ∀ (n : Int) (b : List GEvent),
    minCounter n (a ++ b)
      = min (minCounter n a) (minCounter (applyEvents n a) b) := by
  induction a with
  | nil =>
      intro n b
      simp [minCounter, applyEvents, min_eq_right (minCounter_le n b)]
  | cons e rest ih =>
      intro n b
      rw [List.cons_append]
      rw [show minCounter n (e :: (rest ++ b))
            = min n (minCounter (applyEvent n e) (rest ++ b)) from rfl]
      rw [ih (applyEvent n e) b]
      rw [show minCounter n (e :: rest)
            = min n (minCounter (applyEvent n e) rest) from rfl]
      rw [show applyEvents n (e :: rest) = applyEvents (applyEvent n e) rest from rfl]
      rw [min_assoc]

lemma admit_events_balance (ready nextOk : Bool) (n : Int) :
    applyEvents n (admitRequest ready nextOk).1 = n ∧
      minCounter n (admitRequest ready nextOk).1 = n := by
  cases ready <;> cases nextOk <;>
    simp [admitRequest, applyEvents, applyEvent, minCounter]

lemma runEvents_cons (r : Bool × Bool) (reqs : List (Bool × Bool)) :
    runEvents (r :: reqs) = (admitRequest r.1 r.2).1 ++ runEvents reqs := by
  simp [runEvents]

lemma applyEvents_runEvents (reqs : List (Bool × Bool)) : ∀ n : Int,
    applyEvents n (runEvents reqs) = n := by
  induction reqs with
  | nil => intro n; simp [runEvents, applyEvents]
  | cons r rest ih =>
      intro n
      rw [runEvents_cons, applyEvents_append, (admit_events_balance r.1 r.2 n).1, ih n]

lemma minCounter_runEvents (reqs : List (Bool × Bool)) : ∀ n : Int,
    minCounter n (runEvents reqs) = n := by
  induction reqs with
  | nil => intro n; simp [runEvents, minCounter]
  | cons r rest ih =>
      intro n
      rw [runEvents_cons, minCounter_append, (admit_events_balance r.1 r.2 n).1,
        (admit_events_balance r.1 r.2 n).2, ih n, min_self]

lemma count_admit (ready nextOk : Bool) :
    (admitRequest ready nextOk).1.count GEvent.inc
      = (admitRequest ready nextOk).1.count GEvent.dec := by
  cases ready <;> cases nextOk <;> decide

lemma count_runEvents (reqs : List (Bool × Bool)) :
    (runEvents reqs).count GEvent.inc = (runEvents reqs).count GEvent.dec := by
  induction reqs with
  | nil => rfl
  | cons r rest ih =>
      rw [runEvents_cons, List.count_append, List.count_append, ih, count_admit]

lemma stepRI_after_stop (cfg : RIConfig) (e : RIEvent) (s : RIState)
    (h1 : s.stopped = true) (h2 : s.timer = none) :
    (stepRI cfg e s).stopped = true ∧ (stepRI cfg e s).timer = none ∧
      (stepRI cfg e s).ran = s.ran := by
  cases e with
  | fire success => simp [stepRI, fireTimer, h1, h2]
  | settleInFlight success =>
      cases success <;> simp [stepRI, settleRun, scheduleNext, h1, h2]

lemma runRI_after_stop (cfg : RIConfig) (evs : List RIEvent) : ∀ s : RIState,
    s.stopped = true → s.timer = none →
    (runRI cfg evs s).stopped = true ∧ (runRI cfg evs s).timer = none ∧
      (runRI cfg evs s).ran = s.ran := by
  induction evs with
  | nil => intro s h1 h2; exact ⟨h1, h2, rfl⟩
  | cons e rest ih =>
      intro s h1 h2
      obtain ⟨a, b, c⟩ := stepRI_after_stop cfg e s h1 h2
      obtain ⟨d, f, g⟩ := ih (stepRI cfg e s) a b
      refine ⟨d, f, ?_⟩
      calc (runRI cfg (e :: rest) s).ran
          = (runRI cfg rest (stepRI cfg e s)).ran := rfl
        _ = (stepRI cfg e s).ran := g
        _ = s.ran := c

lemma dropWhile_of_forall_false (p : Nat → Bool) (l : List Nat)
    (h : ∀ x ∈ l, p x = false) : l.dropWhile p = l := by
  cases l with
  | nil => rfl
  | cons x xs => simp [List.dropWhile, h x (by simp)]

lemma trimBytes_of_no_space (l : List Nat) (h : ∀ x ∈ l, isSpaceByte x = false) :
    trimBytes l = l := by
  have h1 : l.dropWhile isSpaceByte = l := dropWhile_of_forall_false _ _ h
  have h2 : l.reverse.dropWhile isSpaceByte = l.reverse :=
    dropWhile_of_forall_false _ _ (fun x hx => h x (List.mem_reverse.mp hx))
  simp [trimBytes, h1, h2]

lemma pidBytes_digits (pid : Nat) :
    ∀ b ∈ pidBytes pid, isDigitByte b = true ∧ isSpaceByte b = false := by
  intro b hb
  by_cases h0 : pid = 0
  · subst h0
    simp [pidBytes] at hb
    subst hb
    decide
  · rw [pidBytes, if_neg h0, List.mem_reverse] at hb
    obtain ⟨d, hd, rfl⟩ := List.mem_map.mp hb
    have hlt : d < 10 := Nat.digits_lt_base (by norm_num) hd
    constructor
    · simp only [isDigitByte, Bool.and_eq_true, decide_eq_true_eq]
      omega
    · simp only [isSpaceByte, Bool.or_eq_false_iff, decide_eq_false_iff_not]
      omega

lemma foldl_digits_reverse (L : List Nat) : ∀ a : Nat,
    List.foldl (fun acc d => acc * 10 + d) a L.reverse
      = a * 10 ^ L.length + Nat.ofDigits 10 L := by
  induction L with
  | nil => intro a; simp [Nat.ofDigits]
  | cons d rest ih =>
      intro a
      simp only [List.reverse_cons, List.foldl_append, List.foldl_cons,
        List.foldl_nil, ih a, Nat.ofDigits_cons, List.length_cons]
      ring

lemma readPid_writePid (pid : Nat) (f : PidFile) :
    readPid (writePid pid f) = some pid := by
  by_cases h0 : pid = 0
  · subst h0; rfl
  · have hd := pidBytes_digits pid
    have htrim : trimBytes (pidBytes pid) = pidBytes pid :=
      trimBytes_of_no_space _ (fun x hx => (hd x hx).2)
    have hdig : Nat.digits 10 pid ≠ [] := Nat.digits_ne_nil_iff_ne_zero.mpr h0
    have hne : (pidBytes pid).isEmpty = false := by
      rw [pidBytes, if_neg h0]
      simp [hdig]
    have hall : (pidBytes pid).all isDigitByte = true :=
      List.all_eq_true.mpr (fun x hx => (hd x hx).1)
    have key : jsNumberOfTrimmed (pidBytes pid) = some pid := by
      rw [jsNumberOfTrimmed, if_neg (by simp [hne]), if_pos hall]
      rw [pidBytes, if_neg h0]
      rw [← List.map_reverse, List.foldl_map]
      have hfun : (fun (x : Nat) (y : Nat) => x * 10 + (48 + y - 48))
          = fun (x : Nat) (y : Nat) => x * 10 + y := by
        funext x y
        omega
      rw [hfun, foldl_digits_reverse, Nat.ofDigits_digits]
      simp
    calc readPid (writePid pid f)
        = jsNumberOfTrimmed (trimBytes (pidBytes pid)) := rfl
      _ = jsNumberOfTrimmed (pidBytes pid) := by rw [htrim]
      _ = some pid := key

/-! ## Claim theorems -/

/-- Claim C1, counterexample: the lifecycle state does not only move along
`init→starting→ready→draining→{stopped|failed}`.  Concretely, after a failed
bind (`start` with a bind error, state `failed`) a `beginShutdown` call moves
the state `failed→draining`, which is not an edge of the claimed chain, so the
trace check against the chain fails. -/
theorem c1_chain_counterexample :
    edgeOKFrom chainEdge LState.init
        (runC [COp.start false, COp.beginShutdown] (initController 30000 false)).2
      = false ∧
    (runC [COp.start false, COp.beginShutdown] (initController 30000 false)).2
      = [LState.starting, LState.failed, LState.draining] := by
  constructor <;> decide

/-- Claim C1 (amended): for every sequence of controller operations the
lifecycle state moves only along the chain
`init→starting→ready→draining→{stopped|failed}` extended by the transitions of
`beginShutdown` (directly or via a signal), which moves any non-`stopped`
state — including `init` and `failed` — to `draining`; `starting→failed` is
reachable on bind error; once the state is `stopped` no operation changes it,
and calling `beginShutdown` while already `stopped` changes nothing at all (no
hooks run, readiness not written). -/
theorem c1_chain_amended :
    (∀ (t : Nat) (e : Bool) (ops : List COp),
        edgeOKFrom allowedEdge LState.init (runC ops (initController t e)).2 = true)
    ∧ (∀ (op : COp) (s : CState), s.lstate = LState.stopped →
        (stepC op s).1.lstate = LState.stopped)
    ∧ (∀ s : CState, s.lstate = LState.stopped → stepC COp.beginShutdown s = (s, []))
    ∧ (runC [COp.start false] (initController 30000 false)).2
        = [LState.starting, LState.failed] := by
  refine ⟨?_, stepC_stopped, stepC_beginShutdown_stopped, by decide⟩
  intro t e ops
  exact runC_trace_ok ops (initController t e)

/-- A controller that has reached `stopped`: bind succeeded, shutdown begun,
and the drain loop observed zero active requests (test mode, so the process
did not exit). -/
def stoppedExample : CState :=
  (runC [COp.start true, COp.beginShutdown, COp.drainTick 0]
    (initController 1000 false)).1

theorem c1_chain_witness :
    (stepC COp.signal stoppedExample).1.lstate = LState.stopped ∧
    stepC COp.beginShutdown stoppedExample = (stoppedExample, []) := by
  constructor
  · exact c1_chain_amended.2.1 COp.signal stoppedExample (by decide)
  · exact c1_chain_amended.2.2.1 stoppedExample (by decide)

/-- Claim C2, counterexample: a request whose origin check passes (Host header
`localhost:4141`) does not trigger the controller's `beginShutdown` drain
sequence — the handler's effect list contains no `callBeginShutdown`; it only
closes the readiness gate and schedules a bare `process.exit(0)` 100 ms
later. -/
theorem c2_admin_counterexample :
    loopbackHostHeader "localhost:4141".data = true ∧
    AdminEffect.callBeginShutdown ∉ (adminShutdown "localhost:4141".data).2 ∧
    (adminShutdown "localhost:4141".data).2
      = [AdminEffect.setReadinessFalse, AdminEffect.scheduleExit 0 100] := by
  refine ⟨by decide, by decide, by decide⟩

/-- Claim C2 (amended): for every POST to the administrative shutdown endpoint
whose Host-header origin check passes, the handler responds immediately with a
200 acknowledgement, closes the readiness gate and schedules a process exit
with code 0 after 100 ms — it does not invoke the controller's `beginShutdown`
drain sequence; requests failing the origin check get 403 Forbidden with no
effect. -/
theorem c2_admin_amended (host : List Char) :
    (loopbackHostHeader host = true →
        (adminShutdown host).1.status = 200 ∧
        (adminShutdown host).2
          = [AdminEffect.setReadinessFalse, AdminEffect.scheduleExit 0 100] ∧
        AdminEffect.callBeginShutdown ∉ (adminShutdown host).2)
    ∧ (loopbackHostHeader host = false →
        adminShutdown host = (⟨403, "Forbidden".data⟩, [])) := by
  cases hb : loopbackHostHeader host with
  | true =>
      refine ⟨fun _ => ?_, fun hf => by simp [hb] at hf⟩
      simp [adminShutdown, hb]
  | false =>
      refine ⟨fun ht => by simp [hb] at ht, fun _ => ?_⟩
      simp [adminShutdown, hb]

theorem c2_admin_witness :
    (adminShutdown "localhost:4141".data).1.status = 200 ∧
    adminShutdown "evil.example:80".data = (⟨403, "Forbidden".data⟩, []) := by
  constructor
  · exact ((c2_admin_amended "localhost:4141".data).1 (by decide)).1
  · exact (c2_admin_amended "evil.example:80".data).2 (by decide)

/-- Claim C3: a termination signal arriving while the controller is `draining`
(a second signal, the first having begun the shutdown) sets the forced flag
and invokes forced termination immediately, producing exit code 2, with no
wall-clock time passing — in particular without waiting out the remaining
shutdown deadline. -/
theorem c3_second_signal_forces (s : CState)
    (hex : s.exitCode = none) (hd : s.lstate = LState.draining)
    (he : s.exitOnShutdown = true) (ht : s.now < s.deadline) :
    (stepC COp.signal s).1.forced = true ∧
    (stepC COp.signal s).1.exitCode = some 2 ∧
    (stepC COp.signal s).1.now = s.now ∧
    (stepC COp.signal s).1.now < s.deadline := by
  refine ⟨?_, ?_, ?_, ?_⟩ <;>
    simp [stepC, hex, handleSignal, hd, forceTerminate, he, ht]

/-- A controller in the middle of a graceful shutdown: bind succeeded, first
signal handled, drain deadline 30 s away, process still running. -/
def drainingExample : CState :=
  (runC [COp.start true, COp.signal] (initController 30000 true)).1

theorem c3_second_signal_witness :
    (stepC COp.signal drainingExample).1.forced = true ∧
    (stepC COp.signal drainingExample).1.exitCode = some 2 ∧
    (stepC COp.signal drainingExample).1.now = drainingExample.now ∧
    (stepC COp.signal drainingExample).1.now < drainingExample.deadline := by
  exact c3_second_signal_forces drainingExample (by decide) (by decide)
    (by decide) (by decide)

/-- Claim C4: the admission middleware rejects with 503 before any counter
event when readiness is false; when readiness is true it emits exactly one
increment and one decrement on both exit paths (completion and thrown error);
over any finite run of requests the counter returns to its initial value,
never dips below it (hence is never negative from 0), and the number of
increments equals the number of decrements. -/
theorem c4_admission_counter :
    (∀ nextOk : Bool, admitRequest false nextOk = ([], AdmitResult.unavailable))
    ∧ (∀ nextOk : Bool,
        (admitRequest true nextOk).1.count GEvent.inc = 1 ∧
        (admitRequest true nextOk).1.count GEvent.dec = 1)
    ∧ (∀ (reqs : List (Bool × Bool)) (n : Int), applyEvents n (runEvents reqs) = n)
    ∧ (∀ (reqs : List (Bool × Bool)) (n : Int), minCounter n (runEvents reqs) = n)
    ∧ (∀ reqs : List (Bool × Bool),
        (runEvents reqs).count GEvent.inc = (runEvents reqs).count GEvent.dec) := by
  refine ⟨?_, ?_, ?_, ?_, count_runEvents⟩
  · intro nextOk; cases nextOk <;> rfl
  · intro nextOk; cases nextOk <;> exact ⟨by decide, by decide⟩
  · intro reqs n; exact applyEvents_runEvents reqs n
  · intro reqs n; exact minCounter_runEvents reqs n

/-- Claim C5, counterexample: a hook registered after draining has begun is
not "never invoked during the remainder of that shutdown": hook 2, registered
while the controller is `draining`, is invoked by the forced-termination path
(the invocation log of the run is `[1, 1, 2]`). -/
theorem c5_late_hook_counterexample :
    (runC [COp.registerHook 1, COp.start true, COp.beginShutdown,
        COp.registerHook 2, COp.signal] (initController 1000 false)).1.invoked
      = [1, 1, 2] ∧
    2 ∈ (runC [COp.registerHook 1, COp.start true, COp.beginShutdown,
        COp.registerHook 2, COp.signal] (initController 1000 false)).1.invoked := by
  constructor <;> decide

/-- Claim C5 (amended): a `registerHook` call after draining has begun is
accepted without error (the hook is appended to the list), and the hook is
not invoked by the drain-poll loop or by clean completion (the set of started
hook promises was fixed when draining began) — but it is invoked if the
shutdown ends in forced termination, because `forceTerminate` re-reads the
live hook list. -/
theorem c5_late_hook_amended :
    (∀ (s : CState) (h : Nat), s.exitCode = none →
        (stepC (COp.registerHook h) s).1.hooks = s.hooks ++ [h])
    ∧ (∀ (s : CState) (a : Nat), s.exitCode = none → s.lstate = LState.draining →
        s.forced = false → s.now < s.deadline →
        (stepC (COp.drainTick a) s).1.invoked = s.invoked)
    ∧ (∀ (s : CState) (h : Nat), s.exitCode = none → s.lstate = LState.draining →
        h ∈ s.hooks → h ∈ (stepC COp.signal s).1.invoked) := by
  refine ⟨?_, ?_, ?_⟩
  · intro s h hex
    simp [stepC, hex]
  · intro s a hex hd hf ht
    have hcond : ¬(s.forced = true ∨ s.deadline ≤ s.now) := by
      rw [hf]
      simp
      omega
    by_cases ha : a = 0
    · by_cases he : s.exitOnShutdown <;>
        simp [stepC, hex, drainTick, hd, hcond, ha, cleanFinish, he]
    · simp [stepC, hex, drainTick, hd, hcond, ha]
  · intro s h hex hd hmem
    by_cases he : s.exitOnShutdown <;>
      simp [stepC, hex, handleSignal, hd, forceTerminate, he, hmem]

/-- A controller that is draining and has had one more hook registered after
the drain began: hooks `[1, 2]`, invocation log `[1]`. -/
def lateHookExample : CState :=
  (runC [COp.registerHook 1, COp.start true, COp.beginShutdown, COp.registerHook 2]
    (initController 1000 false)).1

theorem c5_late_hook_witness :
    (stepC (COp.registerHook 3) lateHookExample).1.hooks = [1, 2, 3] ∧
    (stepC (COp.drainTick 5) lateHookExample).1.invoked = [1] ∧
    2 ∈ (stepC COp.signal lateHookExample).1.invoked := by
  refine ⟨?_, ?_, ?_⟩
  · rw [c5_late_hook_amended.1 lateHookExample 3 (by decide)]
    decide
  · rw [c5_late_hook_amended.2.1 lateHookExample 5 (by decide) (by decide)
      (by decide) (by decide)]
    decide
  · exact c5_late_hook_amended.2.2 lateHookExample 2 (by decide) (by decide) (by decide)

/-- Claim C6: the resilient interval runner schedules the first execution one
base interval after start, with nothing executed immediately; after a
successful execution the failure streak resets to 0 and the next run is
scheduled after exactly the base interval; after the k-th consecutive failure
(streak k after the increment) the next run is scheduled after
`min(base * multiplier ^ k, maxBackoff)`; and the defaults resolve to
multiplier 2 and cap 10 times the base interval. -/
theorem c6_backoff_schedule (cfg : RIConfig) (s : RIState) (h : s.stopped = false) :
    ((riStart cfg).timer = some cfg.intervalMs ∧ (riStart cfg).ran = 0)
    ∧ ((runOnce cfg true s).consecutiveFailures = 0 ∧
        (runOnce cfg true s).timer = some cfg.intervalMs)
    ∧ ((runOnce cfg false s).consecutiveFailures = s.consecutiveFailures + 1 ∧
        (runOnce cfg false s).timer
          = some (min (cfg.intervalMs * cfg.multiplier ^ (s.consecutiveFailures + 1))
              cfg.maxBackoff))
    ∧ (∀ b : Nat, mkRIConfig b none none
        = { intervalMs := b, maxBackoff := b * 10, multiplier := 2 }) := by
  refine ⟨?_, ?_, ?_, ?_⟩
  · constructor <;> simp [riStart, scheduleNext]
  · constructor <;> simp [runOnce, settleRun, scheduleNext, h]
  · constructor <;> simp [runOnce, settleRun, scheduleNext, h]
  · intro b; rfl

/-- A freshly started runner with base interval 20 ms and cap 200 ms (the
configuration of the repository's resilient-interval test). -/
def riExample : RIState := riStart (mkRIConfig 20 (some 200) none)

theorem c6_backoff_witness :
    (runOnce (mkRIConfig 20 (some 200) none) false riExample).timer = some 40 ∧
    (runOnce (mkRIConfig 20 (some 200) none) false riExample).consecutiveFailures = 1 := by
  have h := c6_backoff_schedule (mkRIConfig 20 (some 200) none) riExample (by decide)
  constructor
  · rw [h.2.2.1.2]
    decide
  · rw [h.2.2.1.1]
    decide

/-- Claim C7: the runner handle's `stop()` is idempotent, cancels any pending
timer, and after it no event sequence (timer fires, in-flight settlements) can
begin another execution of the wrapped task (`ran` stays constant); an
execution in flight at the moment of stop may settle but does not reschedule
(no timer is ever set again). -/
theorem c7_stop_contract :
    (∀ s : RIState, riStop (riStop s) = riStop s)
    ∧ (∀ s : RIState, (riStop s).timer = none ∧ (riStop s).stopped = true)
    ∧ (∀ (cfg : RIConfig) (evs : List RIEvent) (s : RIState),
        (runRI cfg evs (riStop s)).ran = s.ran)
    ∧ (∀ (cfg : RIConfig) (success : Bool) (s : RIState),
        (settleRun cfg success (riStop s)).timer = none) := by
  refine ⟨fun s => rfl, fun s => ⟨rfl, rfl⟩, ?_, ?_⟩
  · intro cfg evs s
    exact (runRI_after_stop cfg evs (riStop s) rfl rfl).2.2
  · intro cfg success s
    cases success <;> simp [settleRun, scheduleNext, riStop]

/-- Claim C8, counterexample: an existing record file whose content is empty
is not parsable as a PID, yet `readPid` returns PID 0 rather than "none",
because ECMA numeric conversion maps the empty string to 0. -/
theorem c8_pid_counterexample :
    specParsableAsPid [] = false ∧ readPid (some []) = some 0 := by
  constructor <;> rfl

/-- Claim C8 (amended): `read()` returns the recorded PID when a valid record
exists — `write(pid)` then `read()` returns `pid` for every `pid` (in
particular 12345), and `remove()` then `read()` returns none — and returns
none, without throwing, when the record file is absent or its content is
non-numeric (for example letters); however, content that trims to the empty
string converts to the number 0, so `read()` then returns PID 0 rather than
none. -/
theorem c8_pid_amended :
    (∀ (pid : Nat) (f : PidFile), readPid (writePid pid f) = some pid)
    ∧ (∀ f : PidFile, readPid (removePid f) = none)
    ∧ readPid none = none
    ∧ readPid (some [97, 98, 99]) = none
    ∧ (∀ s : List Nat, (trimBytes s).isEmpty = true → readPid (some s) = some 0) := by
  refine ⟨readPid_writePid, fun f => rfl, rfl, by rfl, ?_⟩
  intro s hs
  simp [readPid, jsNumberOfTrimmed, hs]

theorem c8_pid_witness :
    readPid (some [32, 10]) = some 0 ∧ readPid (writePid 12345 none) = some 12345 := by
  exact ⟨c8_pid_amended.2.2.2.2 [32, 10] (by rfl), c8_pid_amended.1 12345 none⟩

/-- Claim C9: `start()` is valid only from `init` — from any other state it
fails with the synchronous invalid-state error and leaves the whole state
unchanged; from `init` with a successful bind it succeeds into `ready`; when
the bind fails the state becomes `failed`, the error is propagated to the
caller, and exactly one bind attempt is made (no retry). -/
theorem c9_start_contract :
    (∀ (s : CState) (b : Bool), s.lstate ≠ LState.init →
        startCtl b s = (s, some (StartError.invalidState s.lstate)))
    ∧ (∀ s : CState, s.lstate = LState.init →
        (startCtl true s).2 = none ∧ (startCtl true s).1.lstate = LState.ready)
    ∧ (∀ s : CState, s.lstate = LState.init →
        (startCtl false s).1.lstate = LState.failed ∧
        (startCtl false s).2 = some StartError.bindFailure ∧
        (startCtl false s).1.bindAttempts = s.bindAttempts + 1) := by
  refine ⟨?_, ?_, ?_⟩
  · intro s b hne
    simp [startCtl, hne]
  · intro s hi
    constructor <;> simp [startCtl, hi]
  · intro s hi
    refine ⟨?_, ?_, ?_⟩ <;> simp [startCtl, hi]

theorem c9_start_witness :
    startCtl true stoppedExample
      = (stoppedExample, some (StartError.invalidState stoppedExample.lstate)) ∧
    (startCtl false (initController 30000 true)).1.lstate = LState.failed ∧
    (startCtl false (initController 30000 true)).1.bindAttempts = 1 := by
  refine ⟨?_, ?_, ?_⟩
  · exact c9_start_contract.1 stoppedExample true (by decide)
  · exact (c9_start_contract.2.2 (initController 30000 true) (by decide)).1
  · rw [(c9_start_contract.2.2 (initController 30000 true) (by decide)).2.2]
    decide

/-- Claim C10: in any shutdown that ends in forced termination — a second
signal while draining, or a drain-poll iteration finding the forced flag set
or the deadline reached — the forced-termination path invokes every hook in
the hook list again, appending the full list to the invocation log even
though `beginShutdown` already invoked them; concretely, a hook registered
before shutdown is invoked exactly twice in such a run, so correctness relies
on the required idempotence of hooks. -/
theorem c10_force_reinvokes :
    (∀ s : CState, s.exitCode = none → s.lstate = LState.draining →
        (stepC COp.signal s).1.invoked = s.invoked ++ s.hooks)
    ∧ (∀ (s : CState) (a : Nat), s.exitCode = none → s.lstate = LState.draining →
        (s.forced = true ∨ s.deadline ≤ s.now) →
        (stepC (COp.drainTick a) s).1.invoked = s.invoked ++ s.hooks)
    ∧ ((runC [COp.registerHook 7, COp.start true, COp.beginShutdown, COp.signal]
          (initController 1000 false)).1.invoked.count 7 = 2) := by
  refine ⟨?_, ?_, by decide⟩
  · intro s hex hd
    by_cases he : s.exitOnShutdown <;>
      simp [stepC, hex, handleSignal, hd, forceTerminate, he]
  · intro s a hex hd hcond
    by_cases he : s.exitOnShutdown <;>
      simp [stepC, hex, drainTick, hd, hcond, forceTerminate, he]

theorem c10_force_witness :
    (stepC COp.signal lateHookExample).1.invoked
      = lateHookExample.invoked ++ lateHookExample.hooks := by
  exact c10_force_reinvokes.1 lateHookExample (by decide) (by decide)
